import Mathlib

/-!
# Verification of the singstatdata search-and-filter workflow

Shallow embedding of `singstatdata/singstatdata.py` (resolver, metadata
aggregator, series fetcher, stateful session with re-filtering) and proofs
about the claims of the specification.

Modelling conventions:
* Python values that may be `None`, an `int`, or a `list` of ints are embedded
  as the inductive `PyVal`; raised exceptions become `Except PyErr`.
* The HTTP transport is a parameter: the directory endpoint is an
  `Option (List DirEntry)` (`none` = transport failure), the metadata endpoint
  a function `Int → List RawMetadata`, the table endpoint `Int → T`.
* A pandas `DataFrame` is a list of (index, row) pairs; `reset_index`
  re-numbers the index, `sort_values` is modelled by `List.insertionSort`
  (it coincides with the source for distinct sort keys).
* Python's `str.lower` is modelled on ASCII by `asciiLower`; `re.search` of
  the pattern `'|'.join(keyphrases)` is modelled by a matcher for the regex
  fragment the source can build here: `'|'`-alternation of branches whose
  atoms are literal characters or the wildcard `'.'` (which matches every
  character except a newline).  All theorems below instantiate the matcher
  only on patterns inside this fragment, where it agrees with Python `re`.
-/

/-- One entry of the dataset directory returned by the `resourceId` endpoint:
`list(dataset.values())[0]` is the identifier, `[1]` the title. -/
structure DirEntry where
  resourceId : Int
  title : String
deriving DecidableEq

/-- Exceptions the embedded code can raise. -/
inductive PyErr where
  | typeError
  | assertionError
  | nameError
  | keyError
  | indexError
  | valueError
deriving DecidableEq

/-- The dynamic value passed as `resource_ids`: `None`, an int, or a list of
ints (a list with a non-int element also raises `TypeError` in the source and
is not representable here). -/
inductive PyVal where
  | vnone
  | vint (i : Int)
  | vlist (l : List Int)
deriving DecidableEq

/-- The `keyphrases` argument of `get_resource_id`: absent, a string, or a
list of strings. -/
inductive Keyphrases where
  | omitted
  | str (s : String)
  | list (l : List String)
deriving DecidableEq

/-- Model of Python `str.lower` on a single ASCII character. -/
def asciiLower (c : Char) : Char :=
  match c with
  | 'A' => 'a' | 'B' => 'b' | 'C' => 'c' | 'D' => 'd' | 'E' => 'e'
  | 'F' => 'f' | 'G' => 'g' | 'H' => 'h' | 'I' => 'i' | 'J' => 'j'
  | 'K' => 'k' | 'L' => 'l' | 'M' => 'm' | 'N' => 'n' | 'O' => 'o'
  | 'P' => 'p' | 'Q' => 'q' | 'R' => 'r' | 'S' => 's' | 'T' => 't'
  | 'U' => 'u' | 'V' => 'v' | 'W' => 'w' | 'X' => 'x' | 'Y' => 'y'
  | 'Z' => 'z' | d => d

/-- Lower-casing, `s.lower()`, on a character list. -/
def lowerL (l : List Char) : List Char := l.map asciiLower

/-- Lower-casing, `s.lower()`, on a string. -/
def lowerS (s : String) : String := ⟨lowerL s.data⟩

/-- Characters with a special meaning in Python regular expressions. -/
def reMetachars : List Char :=
  ['.', '^', '$', '*', '+', '?', '\x7b', '\x7d', '[', ']', '\\', '|', '(', ')']

/-- One regex atom against one character: `'.'` matches everything except a
newline, any other pattern character only itself. -/
def charMatch (p c : Char) : Bool :=
  if p = '.' then !(c = '\n') else p = c

/-- Does the branch `ps` match a prefix of `cs`? -/
def branchAt : List Char → List Char → Bool
  | [], _ => true
  | _ :: _, [] => false
  | p :: ps, c :: cs => charMatch p c && branchAt ps cs

/-- Does the branch `ps` match at some position of `cs`?  (Semantics of
`re.search` for a single quantifier-free branch.) -/
def branchSearch (ps : List Char) : List Char → Bool
  | [] => branchAt ps []
  | c :: t => branchAt ps (c :: t) || branchSearch ps t

/-- Split a pattern at every `'|'`; returns (current segment, later segments). -/
def splitBarCore : List Char → List Char × List (List Char)
  | [] => ([], [])
  | c :: rest =>
    let r := splitBarCore rest
    if c = '|' then ([], r.1 :: r.2) else (c :: r.1, r.2)

/-- The `'|'`-separated branches of a pattern (never empty, like
`"".split` in Python which yields one empty segment). -/
def splitBar (l : List Char) : List (List Char) :=
  (splitBarCore l).1 :: (splitBarCore l).2

/-- Model of `re.search(pat, s)` for the fragment described in the header:
the pattern matches iff one of its `'|'`-branches matches somewhere. -/
def reSearch (pat s : List Char) : Bool :=
  (splitBar pat).any fun b => branchSearch b s

/-- Joining with bars, `'|'.join(bs)`, on character lists. -/
def joinBar : List (List Char) → List Char
  | [] => []
  | [b] => b
  | b :: bs => b ++ '|' :: joinBar bs

/-- Does `needle` match a prefix of `hay` literally? -/
def litAt : List Char → List Char → Bool
  | [], _ => true
  | _ :: _, [] => false
  | p :: ps, c :: cs => (p = c) && litAt ps cs

/-- Python's `needle in hay` substring containment on character lists. -/
def pyContains (needle : List Char) : List Char → Bool
  | [] => litAt needle []
  | c :: t => litAt needle (c :: t) || pyContains needle t

/-- Embedding of `get_resource_id`.  `json` is the parsed directory response
(`none` models a failed transport, where `get_json` returns `None`); the
printed messages of the source are side effects without influence on the
returned value and are dropped.  Mirrors lines 57-87 of the source: empty
record set returns `None`; absent keyphrases return every identifier; a
string keyphrase filters by lower-cased substring; a keyphrase list with
`match_all=False` filters with `re.search('|'.join(lowered))`, and with
`match_all=True` by substring containment of every keyphrase. -/
def get_resource_id (json : Option (List DirEntry)) (keyphrases : Keyphrases)
    (matchAll : Bool) : Option (List Int) :=
  match json with
  | none => none
  | some records =>
    if records.isEmpty then none
    else
      match keyphrases with
      | .omitted => some (records.map (·.resourceId))
      | .str k =>
          some ((records.filter fun d =>
            pyContains (lowerL k.data) (lowerL d.title.data)).map (·.resourceId))
      | .list ks =>
          if matchAll = false then
            some ((records.filter fun d =>
              reSearch (joinBar (ks.map fun k => lowerL k.data))
                (lowerL d.title.data)).map (·.resourceId))
          else
            some ((records.filter fun d =>
              ks.all fun k =>
                pyContains (lowerL k.data) (lowerL d.title.data)).map (·.resourceId))

/-- Embedding of `check_resource_ids` (source lines 89-95): `None` (and any non-int,
non-list value) raises `TypeError`. -/
def check_resource_ids : PyVal → Except PyErr Unit
  | .vnone => .error .typeError
  | .vint _ => .ok ()
  | .vlist _ => .ok ()

/-- Descriptor of one observation column (`variables` entries). -/
structure VariableDescriptor where
  variableCode : String
  variableName : String
deriving DecidableEq

/-- One metadata record as fetched from the metadata endpoint, before the
`drop(columns=...)` call. -/
structure RawMetadata where
  resourceId : Int
  title : String
  uom : String
  frequency : String
  datasource : String
  footnote : Option String
  startPeriod : String
  endPeriod : String
  variablesCol : List VariableDescriptor
  downloadFormats : String
  termsOfUse : String
  apiTermsOfService : String
  url : String
deriving DecidableEq

/-- One overview row, after `df.drop(columns=['downloadFormats', 'termsOfUse',
'apiTermsOfService', 'url'])`. -/
structure OverviewRecord where
  resourceId : Int
  title : String
  uom : String
  frequency : String
  datasource : String
  footnote : Option String
  startPeriod : String
  endPeriod : String
  variablesCol : List VariableDescriptor
deriving DecidableEq

/-- The column drop of `build_metadata_table`. -/
def dropColumns (m : RawMetadata) : OverviewRecord :=
  { resourceId := m.resourceId, title := m.title, uom := m.uom,
    frequency := m.frequency, datasource := m.datasource,
    footnote := m.footnote, startPeriod := m.startPeriod,
    endPeriod := m.endPeriod, variablesCol := m.variablesCol }

/-- A pandas DataFrame: rows paired with their index labels. -/
abbrev DF (α : Type) := List (Nat × α)

/-- A fresh DataFrame built from a record list gets the index `0, 1, ...`. -/
def dfOfRows {α : Type} (l : List α) : DF α := (List.range l.length).zip l

/-- Concatenation, `pd.concat`, keeps both operands' index labels. -/
def build_metadata_table (env : Int → List RawMetadata) (df_full : DF OverviewRecord)
    (ID : Int) : DF OverviewRecord :=
  df_full ++ dfOfRows ((env ID).map dropColumns)

/-- The sort key of `sort_values('resourceId')`. -/
def rowLe (a b : Nat × OverviewRecord) : Prop :=
  a.2.resourceId ≤ b.2.resourceId

instance : DecidableRel rowLe := fun _ _ => Int.decLe _ _

instance : IsTotal (Nat × OverviewRecord) rowLe :=
  ⟨fun a b => Int.le_total a.2.resourceId b.2.resourceId⟩

instance : IsTrans (Nat × OverviewRecord) rowLe :=
  ⟨fun _ _ _ => Int.le_trans⟩

/-- Sorting, `df.sort_values('resourceId')`, modelled as a stable sort (the source uses
pandas' default quicksort; for rows with distinct identifiers — the only
situation the claims speak about — both produce the same table). -/
def sortByResourceId (df : DF OverviewRecord) : DF OverviewRecord :=
  List.insertionSort rowLe df

/-- Renumbering, `df.reset_index(drop=True)`. -/
def resetIndex {α : Type} (df : DF α) : DF α :=
  (List.range df.length).zip (df.map (·.2))

/-- Embedding of `get_overview` (source lines 97-172): validate the ids, fetch
each identifier's metadata records via `env` (the metadata endpoint of a
working transport), drop the four link columns, concatenate, sort by
`resourceId` and reset the index. -/
def get_overview (env : Int → List RawMetadata) (v : PyVal) :
    Except PyErr (DF OverviewRecord) :=
  match check_resource_ids v with
  | .error e => .error e
  | .ok _ =>
    match v with
    | .vnone => .error .typeError
    | .vint i =>
        .ok (resetIndex (sortByResourceId (build_metadata_table env [] i)))
    | .vlist l =>
        .ok (resetIndex (sortByResourceId (l.foldl (build_metadata_table env) [])))

/-- Embedding of `get_timeseries` (source lines 174-333): validate the ids and
build the dictionary mapping each requested identifier to its fetched, pivoted
table.  `env` packages the `tabledata` fetch and the pivot for one identifier
(none of the claims look inside a table, so the table type is a parameter). -/
def get_timeseries {T : Type} (env : Int → T) (v : PyVal) :
    Except PyErr (List (Int × T)) :=
  match check_resource_ids v with
  | .error e => .error e
  | .ok _ =>
    match v with
    | .vnone => .error .typeError
    | .vint i => .ok [(i, env i)]
    | .vlist l => .ok (l.map fun id => (id, env id))

/-- The state of a `timeseries_search` object. -/
structure Session (T : Type) where
  resource_ids : List Int
  overview : DF OverviewRecord
  timeseries : List (Int × T)
deriving DecidableEq

/-- The `PyVal` carried by `self.resource_ids` right after resolution. -/
def pyValOfIds : Option (List Int) → PyVal
  | none => .vnone
  | some l => .vlist l

/-- Embedding of `timeseries_search.__init__` (source lines 336-339): resolve,
then aggregate metadata, then fetch the series; an exception in either step
aborts the construction. -/
def timeseries_search_init {T : Type} (dir : Option (List DirEntry))
    (envMeta : Int → List RawMetadata) (envSeries : Int → T)
    (keyphrases : Keyphrases) (matchAll : Bool) : Except PyErr (Session T) :=
  let rids := get_resource_id dir keyphrases matchAll
  match get_overview envMeta (pyValOfIds rids) with
  | .error e => .error e
  | .ok ov =>
    match get_timeseries envSeries (pyValOfIds rids) with
    | .error e => .error e
    | .ok ts => .ok { resource_ids := rids.getD [], overview := ov, timeseries := ts }

/-- Decimal digits of `n`, with explicit fuel so that the definition is
structurally recursive (any fuel above `n` gives the same digits). -/
def natStrAux : Nat → Nat → List Char
  | 0, _ => []
  | fuel + 1, n =>
    if n < 10 then [Nat.digitChar n]
    else natStrAux fuel (n / 10) ++ [Nat.digitChar (n % 10)]

/-- Model of Python `str(n)` for a natural number (decimal digits). -/
def natStr (n : Nat) : String := String.mk (natStrAux (n + 1) n)

/-- Model of Python `str(y)` for an int: a minus sign before the digits of the
absolute value when negative. -/
def pyIntStr (y : Int) : String :=
  if y < 0 then "-" ++ natStr y.natAbs else natStr y.toNat

/-- Model of Python `str(start_year)`: `str(None)` is the four-character
string `"None"`. -/
def pyStr : Option Int → String
  | Option.none => "None"
  | some y => pyIntStr y

/-- The `start_year` validation of `filter_datasets` (source line 370):
`len(str(start_year)) != 4` raises; the embedded type already guarantees the
`type(start_year) not in [int, type(None)]` half. -/
def start_year_check (sy : Option Int) : Bool :=
  (pyStr sy).length == 4

/-- The literal list of source line 376 — note the stray comma inside the
first element, `'all,'`. -/
def frequencies : List String :=
  ["all,", "annual", "quarterly", "monthly", "ad-hoc", "half-yearly"]

/-- The `frequency` argument: a string or a list of strings (other types
raise `TypeError` on line 367 and are not representable here). -/
inductive Freq where
  | str (s : String)
  | list (l : List String)
deriving DecidableEq

/-- The frequency test of `filter_datasets` (source lines 376-390).  For a
list, every element is asserted to be in `frequencies`, then rows survive by
`overview['frequency'].str.lower().isin(frequency)` unless `'all'` is in the
list.  For a plain string the source asserts on `freq` — a name never bound
in that branch — so Python raises `NameError` before anything else happens. -/
def freqFiltered (ov : DF OverviewRecord) : Freq → Except PyErr (DF OverviewRecord)
  | .list l =>
      if l.all fun f => frequencies.contains f then
        if l.contains "all" then .ok ov
        else .ok (ov.filter fun p => l.contains (lowerS p.2.frequency))
      else .error .assertionError
  | .str _ => .error .nameError

/-- Split a character list at every blank; returns (current segment, later
segments). -/
def splitWsCore : List Char → List Char × List (List Char)
  | [] => ([], [])
  | c :: rest =>
    let r := splitWsCore rest
    if c = ' ' then ([], r.1 :: r.2) else (c :: r.1, r.2)

/-- Tokenizing, `str.split()`, of a start-period cell: split on blanks, drop the empty
fragments. -/
def splitWsL (l : List Char) : List (List Char) :=
  ((splitWsCore l).1 :: (splitWsCore l).2).filter fun t => ¬t = []

/-- The value of one decimal digit character. -/
def digitVal (c : Char) : Option Nat :=
  if '0' ≤ c ∧ c ≤ '9' then some (c.toNat - 48) else Option.none

/-- Accumulate decimal digits left to right. -/
def parseDigitsAux : List Char → Nat → Option Nat
  | [], acc => some acc
  | c :: t, acc =>
    match digitVal c with
    | some d => parseDigitsAux t (acc * 10 + d)
    | Option.none => Option.none

/-- A non-empty all-digit token, or nothing. -/
def parseDigits (l : List Char) : Option Nat :=
  if l = [] then Option.none else parseDigitsAux l 0

/-- Model of Python `int(token)` for a split token: an optional sign followed
by at least one decimal digit (the exotic forms `int` also accepts —
surrounding whitespace, underscores — cannot occur in a split token's use
here and are not modelled). -/
def pyInt : List Char → Option Int
  | '-' :: rest => (parseDigits rest).map fun n => -(n : Int)
  | '+' :: rest => (parseDigits rest).map fun n => (n : Int)
  | l => (parseDigits l).map fun n => (n : Int)

/-- One row of the start-year mask, `int(i[0]) >= start_year`: `i[0]` raises
`IndexError` on an empty split, `int(...)` raises `ValueError` on a
non-numeric token. -/
def startYearKeep (sy : Int) (r : OverviewRecord) : Except PyErr Bool :=
  match splitWsL r.startPeriod.data with
  | [] => .error .indexError
  | t :: _ =>
    match pyInt t with
    | Option.none => .error .valueError
    | some v => .ok (decide (v ≥ sy))

/-- Apply the start-year mask to the filtered overview (source line 393). -/
def filterYear (sy : Int) : DF OverviewRecord → Except PyErr (DF OverviewRecord)
  | [] => .ok []
  | p :: ps =>
    match startYearKeep sy p.2 with
    | .error e => .error e
    | .ok b =>
      match filterYear sy ps with
      | .error e => .error e
      | .ok rest => .ok (if b then p :: rest else rest)

/-- The filtered overview of `filter_datasets` (source lines 376-395): the
frequency test, then — when `start_year` is truthy — the start-year mask. -/
def filteredOverview (ov : DF OverviewRecord) (frequency : Freq)
    (start_year : Option Int) : Except PyErr (DF OverviewRecord) :=
  match freqFiltered ov frequency with
  | .error e => .error e
  | .ok fo =>
    match start_year with
    | some y => if y ≠ 0 then filterYear y fo else .ok fo
    | Option.none => .ok fo

/-- Dictionary access `self.timeseries[ID]`: a missing key raises `KeyError`. -/
def dictGet {T : Type} (d : List (Int × T)) (k : Int) : Except PyErr T :=
  match d.find? fun p => p.1 == k with
  | some p => .ok p.2
  | Option.none => .error .keyError

/-- The dictionary comprehension `{ID: timeseries[ID] for ID in new_ids}`. -/
def buildDict {T : Type} (d : List (Int × T)) : List Int → Except PyErr (List (Int × T))
  | [] => .ok []
  | id :: ids =>
    match dictGet d id with
    | .error e => .error e
    | .ok t =>
      match buildDict d ids with
      | .error e => .error e
      | .ok rest => .ok ((id, t) :: rest)

/-- Embedding of `timeseries_search.filter_datasets` (source lines 341-407).
Returns the session state after the call together with the returned value
(`none` models Python's implicit `return None` on the in-place branch).  The
`display(...)` calls are pure console side effects and are dropped.  On an
uncaught exception the source may leave the object partially updated (the
in-place branch assigns field by field); the error results here model the
raised exception only, and no claim below depends on the post-error state. -/
def filter_datasets {T : Type} (st : Session T) (frequency : Freq)
    (start_year : Option Int) (inplace : Bool) :
    Except PyErr (Session T × Option (List (Int × T))) :=
  if start_year_check start_year then
    match filteredOverview st.overview frequency start_year with
    | .error e => .error e
    | .ok fo =>
      let new_ids := fo.map fun p => p.2.resourceId
      if inplace then
        match buildDict st.timeseries new_ids with
        | .error e => .error e
        | .ok ts =>
            .ok ({ resource_ids := new_ids,
                   overview := st.overview.filter fun p => new_ids.contains p.2.resourceId,
                   timeseries := ts }, Option.none)
      else
        match buildDict st.timeseries new_ids with
        | .error e => .error e
        | .ok d => .ok (st, some d)
  else .error .typeError

/-- A concrete session used by witnesses and counterexamples, shaped after the
specification's end-to-end scenario. -/
def r1 : OverviewRecord :=
  { resourceId := 1, title := "Property Price Index", uom := "Index",
    frequency := "Quarterly", datasource := "URA", footnote := Option.none,
    startPeriod := "1975 1Q", endPeriod := "2020 3Q", variablesCol := [] }

def r2 : OverviewRecord :=
  { resourceId := 2, title := "Office Rental Index", uom := "Index",
    frequency := "Annual", datasource := "URA", footnote := Option.none,
    startPeriod := "2012", endPeriod := "2019", variablesCol := [] }

def r3 : OverviewRecord :=
  { resourceId := 3, title := "Food Price Index", uom := "Index",
    frequency := "Monthly", datasource := "DOS", footnote := Option.none,
    startPeriod := "1961 Jan", endPeriod := "2020 Dec", variablesCol := [] }

def demoSession : Session Nat :=
  { resource_ids := [1, 2, 3],
    overview := [(0, r1), (1, r2), (2, r3)],
    timeseries := [(1, 101), (2, 102), (3, 103)] }

example : get_resource_id
    (some [⟨1, "Property Price Index"⟩, ⟨2, "Office Rental Index"⟩,
           ⟨3, "Food Price Index"⟩]) (.str "price") false = some [1, 3] := by decide

example : get_resource_id
    (some [⟨1, "Property Price Index"⟩, ⟨2, "Office Rental Index"⟩,
           ⟨3, "Food Price Index"⟩]) (.list ["food", "office"]) false = some [2, 3] := by
  decide

example : get_resource_id
    (some [⟨1, "Property Price Index"⟩, ⟨2, "Office Rental Index"⟩,
           ⟨3, "Food Price Index"⟩]) (.list ["food", "price"]) true = some [3] := by
  decide

deriving instance DecidableEq for Except

/-- A concrete metadata endpoint used by witnesses: one record per id. -/
def mkMeta (i : Int) : RawMetadata :=
  { resourceId := i, title := "t", uom := "u", frequency := "Annual",
    datasource := "d", footnote := Option.none, startPeriod := "2000",
    endPeriod := "2001", variablesCol := [], downloadFormats := "x",
    termsOfUse := "x", apiTermsOfService := "x", url := "x" }

example : filter_datasets demoSession (.str "all") Option.none false =
    .error .nameError := by decide

example : filter_datasets demoSession (.list ["all"]) Option.none false =
    .error .assertionError := by decide

example : filter_datasets demoSession (.list ["quarterly"]) Option.none false =
    .ok (demoSession, some [(1, 101)]) := by decide

example : filter_datasets demoSession (.list ["annual"]) (some (-999)) false =
    .ok (demoSession, some [(2, 102)]) := by decide

example : filter_datasets demoSession (.str "quarterly") (some 2000) true =
    .error .nameError := by decide

example : natStr 2000 = "2000" := by decide

example : pyStr Option.none = "None" := by decide

example : get_overview (fun i => [mkMeta i]) (.vlist [2, 1]) =
    .ok [(0, dropColumns (mkMeta 1)), (1, dropColumns (mkMeta 2))] := by decide

/-! ## Helper lemmas: the alternation pattern versus plain substring search -/

/-- Lower-casing never produces a regex metacharacter from an ordinary
character. -/
theorem asciiLower_not_special {c : Char} (h : c ∉ reMetachars) :
    ¬asciiLower c = '.' ∧ ¬asciiLower c = '|' := by
  unfold asciiLower
  split <;> simp_all [reMetachars]

/-- A keyphrase without metacharacters lower-cases to a branch without the
two characters the matcher treats specially. -/
theorem lowerL_no_special {l : List Char} (h : ∀ c ∈ l, c ∉ reMetachars) :
    '.' ∉ lowerL l ∧ '|' ∉ lowerL l := by
  constructor <;>
  · intro hmem
    obtain ⟨c, hc, hlc⟩ := List.mem_map.mp hmem
    rcases asciiLower_not_special (h c hc) with ⟨h1, h2⟩
    simp_all

/-- Without the wildcard, a branch prefix-matches exactly like a literal
prefix check. -/
theorem branchAt_eq_litAt : ∀ (ps cs : List Char), '.' ∉ ps →
    branchAt ps cs = litAt ps cs
  | [], _, _ => rfl
  | _ :: _, [], _ => rfl
  | p :: ps, c :: cs, h => by
    have hp : ¬p = '.' := fun hc => h (hc ▸ List.mem_cons_self p ps)
    have ih := branchAt_eq_litAt ps cs fun hx => h (List.mem_cons_of_mem p hx)
    simp [branchAt, litAt, charMatch, hp, ih]

/-- Without the wildcard, searching a branch anywhere is exactly Python's
substring containment. -/
theorem branchSearch_eq_pyContains (ps : List Char) (h : '.' ∉ ps) :
    ∀ cs, branchSearch ps cs = pyContains ps cs
  | [] => by simp [branchSearch, pyContains, branchAt_eq_litAt ps [] h]
  | c :: t => by
    simp [branchSearch, pyContains, branchAt_eq_litAt ps (c :: t) h,
      branchSearch_eq_pyContains ps h t]

/-- Two pointwise-equal predicates give the same `List.any`. -/
theorem list_any_congr {a : Type} {p q : a → Bool} :
    ∀ {l : List a}, (∀ b ∈ l, p b = q b) → l.any p = l.any q
  | [], _ => rfl
  | x :: t, h => by
    simp only [List.any_cons, h x (List.mem_cons_self x t),
      list_any_congr fun b hb => h b (List.mem_cons_of_mem x hb)]

/-- Splitting after appending a bar-free chunk. -/
theorem splitBarCore_append : ∀ (b l : List Char), '|' ∉ b →
    splitBarCore (b ++ l) = ((b ++ (splitBarCore l).1, (splitBarCore l).2))
  | [], _, _ => rfl
  | c :: b, l, h => by
    have hc : ¬c = '|' := fun hc => h (hc ▸ List.mem_cons_self c b)
    have ih := splitBarCore_append b l fun hx => h (List.mem_cons_of_mem c hx)
    simp [splitBarCore, ih, hc]

/-- A bar-free pattern is a single branch. -/
theorem splitBarCore_no_bar (b : List Char) (h : '|' ∉ b) :
    splitBarCore b = (b, []) := by
  have := splitBarCore_append b [] h
  simpa [splitBarCore] using this

/-- Splitting undoes joining for a non-empty list of bar-free branches. -/
theorem splitBar_joinBar : ∀ (bs : List (List Char)), bs ≠ [] →
    (∀ b ∈ bs, '|' ∉ b) → splitBar (joinBar bs) = bs
  | [], hne, _ => absurd rfl hne
  | [b], _, h => by
    simp [splitBar, joinBar, splitBarCore_no_bar b (h b (List.mem_singleton.mpr rfl))]
  | b :: b' :: bs, _, h => by
    have hb : '|' ∉ b := h b (List.mem_cons_self _ _)
    have ih := splitBar_joinBar (b' :: bs) (List.cons_ne_nil _ _)
      fun x hx => h x (List.mem_cons_of_mem b hx)
    simp only [joinBar]
    simp only [splitBar, splitBarCore_append b ('|' :: joinBar (b' :: bs)) hb,
      splitBarCore] at *
    simp_all

/-- For a non-empty family of branches free of `'.'` and `'|'`, the compiled
alternation pattern matches exactly when some branch is a substring. -/
theorem reSearch_joinBar (bs : List (List Char)) (s : List Char) (hne : bs ≠ [])
    (h : ∀ b ∈ bs, '.' ∉ b ∧ '|' ∉ b) :
    reSearch (joinBar bs) s = bs.any fun b => pyContains b s := by
  unfold reSearch
  rw [splitBar_joinBar bs hne fun b hb => (h b hb).2]
  exact list_any_congr fun b hb => branchSearch_eq_pyContains b (h b hb).1 s

/-- Lifting `any` over a mapped list. -/
theorem list_any_map {a b : Type} (f : a → b) (p : b → Bool) :
    ∀ l : List a, (l.map f).any p = l.any fun x => p (f x)
  | [] => rfl
  | x :: t => by simp only [List.map_cons, List.any_cons, list_any_map f p t]

/-- The `match_all=False` list branch of `get_resource_id`, rewritten from the
compiled alternation pattern to a per-keyphrase substring disjunction — valid
for non-empty directories and non-empty keyphrase lists free of regex
metacharacters (for such inputs the matcher model agrees with Python `re`). -/
theorem resolve_list_false_substr (records : List DirEntry) (ks : List String)
    (hne : records ≠ []) (hks : ks ≠ [])
    (hm : ∀ k ∈ ks, ∀ c ∈ k.data, c ∉ reMetachars) :
    get_resource_id (some records) (.list ks) false =
      some ((records.filter fun d =>
        ks.any fun k => pyContains (lowerL k.data) (lowerL d.title.data)).map
          (·.resourceId)) := by
  have hemp : records.isEmpty = false := by
    cases records with
    | nil => exact absurd rfl hne
    | cons r rs => rfl
  have hbs : (ks.map fun k => lowerL k.data) ≠ [] := by
    simpa using hks
  have hsp : ∀ b ∈ ks.map fun k => lowerL k.data, '.' ∉ b ∧ '|' ∉ b := by
    intro b hb
    obtain ⟨k, hk, rfl⟩ := List.mem_map.mp hb
    exact lowerL_no_special (hm k hk)
  simp only [get_resource_id, hemp, Bool.false_eq_true, if_false, if_pos rfl]
  rw [if_pos trivial]
  congr 1
  congr 1
  apply List.filter_congr
  intro d _
  rw [reSearch_joinBar _ _ hbs hsp, list_any_map]

/-- Counting rows kept by a disjunction plus rows kept by the conjunction
equals the two individual counts (inclusion–exclusion on one list). -/
theorem length_filter_or_and {a : Type} (p q : a → Bool) :
    ∀ l : List a,
      (l.filter fun x => p x || q x).length + (l.filter fun x => p x && q x).length
        = (l.filter p).length + (l.filter q).length
  | [] => rfl
  | x :: t => by
    have ih := length_filter_or_and p q t
    cases hp : p x <;> cases hq : q x <;>
      simp [List.filter_cons, hp, hq] <;> omega

/-- Sanity check: `litAt` decides the is-prefix relation. -/
theorem litAt_iff_prefix : ∀ (n h : List Char), litAt n h = true ↔ n <+: h
  | [], h => by simp [litAt]
  | p :: ps, [] => by simp [litAt]
  | p :: ps, c :: cs => by
    simp [litAt, List.cons_prefix_cons, litAt_iff_prefix ps cs]

/-- Sanity check: `pyContains` decides the is-infix relation: the spec-side substring
reading below means exactly "occurs somewhere inside". -/
theorem pyContains_iff_infix (n : List Char) : ∀ h, pyContains n h = true ↔ n <:+: h
  | [] => by cases n <;> simp [pyContains, litAt, List.infix_nil]
  | c :: t => by
    simp [pyContains, litAt_iff_prefix, pyContains_iff_infix n t, List.infix_cons_iff]

/-- Spec-side definition (claim C1): the identifiers, in directory order,
whose title contains at least one of the keyphrases as a case-insensitive
substring. -/
def resolveAnySpec (records : List DirEntry) (ks : List String) : List Int :=
  (records.filter fun d =>
    ks.any fun k => pyContains (lowerL k.data) (lowerL d.title.data)).map
      (·.resourceId)

/-- **C1 (counterexample)**: with a directory holding the single title
`"abc"` and the keyphrase list `["."]`, `get_resource_id` with
`match_all=False` returns the identifier — `re.search` treats `"."` as a
wildcard — although `"."` is not a substring of the title, so the claim's
substring reading predicts the empty result. -/
theorem resolve_any_regex_cex :
    get_resource_id (some [⟨1, "abc"⟩]) (.list ["."]) false = some [1] ∧
      resolveAnySpec [⟨1, "abc"⟩] ["."] = [] := by
  exact ⟨by decide, by decide⟩

/-- **C1 (amended)**: for every non-empty directory and every non-empty list
of keyphrases containing no regex metacharacter, `get_resource_id` with
`match_all=False` returns exactly the identifiers, in directory order, whose
title contains at least one keyphrase as a case-insensitive substring. -/
theorem resolve_any_substring_amended (records : List DirEntry) (ks : List String)
    (hne : records ≠ []) (hks : ks ≠ [])
    (hm : ∀ k ∈ ks, ∀ c ∈ k.data, c ∉ reMetachars) :
    get_resource_id (some records) (.list ks) false = some (resolveAnySpec records ks) :=
  resolve_list_false_substr records ks hne hks hm

/-- Witness for C1 on the specification's end-to-end directory. -/
theorem resolve_any_substring_amended_witness :
    get_resource_id
        (some [⟨1, "Property Price Index"⟩, ⟨2, "Office Rental Index"⟩,
               ⟨3, "Food Price Index"⟩]) (.list ["food", "office"]) false =
      some (resolveAnySpec
        [⟨1, "Property Price Index"⟩, ⟨2, "Office Rental Index"⟩,
         ⟨3, "Food Price Index"⟩] ["food", "office"]) ∧
    resolveAnySpec
        [⟨1, "Property Price Index"⟩, ⟨2, "Office Rental Index"⟩,
         ⟨3, "Food Price Index"⟩] ["food", "office"] = [2, 3] :=
  ⟨resolve_any_substring_amended _ _ (by decide) (by decide) (by decide), by decide⟩

/-- Every title matches the empty alternation pattern. -/
theorem branchSearch_nil : ∀ t : List Char, branchSearch [] t = true
  | [] => rfl
  | _ :: _ => by simp [branchSearch, branchAt]

/-- **C9**: on a non-empty directory, an empty keyphrase list returns every
identifier in directory order — under `match_all=False` because
`'|'.join([])` is the empty pattern, which matches every title, and under
`match_all=True` because a vacuous `all(...)` is true. -/
theorem resolve_empty_keyphrases (records : List DirEntry) (hne : records ≠ []) :
    get_resource_id (some records) (.list []) false = some (records.map (·.resourceId)) ∧
      get_resource_id (some records) (.list []) true = some (records.map (·.resourceId)) := by
  have hemp : records.isEmpty = false := by
    cases records with
    | nil => exact absurd rfl hne
    | cons r rs => rfl
  constructor
  · simp only [get_resource_id, hemp, Bool.false_eq_true, if_false]
    rw [if_pos trivial]
    congr 1
    congr 1
    rw [List.filter_eq_self.mpr]
    intro d _
    simpa [reSearch, joinBar, splitBar, splitBarCore] using branchSearch_nil _
  · simp only [get_resource_id, hemp, Bool.false_eq_true, if_false]
    rw [if_neg (by simp)]
    congr 1
    congr 1
    rw [List.filter_eq_self.mpr]
    intro d _
    simp

/-- Witness for C9 on a one-entry directory. -/
theorem resolve_empty_keyphrases_witness :
    get_resource_id (some [⟨1, "abc"⟩]) (.list []) false = some [1] ∧
      get_resource_id (some [⟨1, "abc"⟩]) (.list []) true = some [1] :=
  resolve_empty_keyphrases [⟨1, "abc"⟩] (by decide)

/-- **C10**: when resolution yields no list (`get_resource_id` returned
`None` after a transport failure or an empty directory), the session
constructor does not build an empty session: `get_overview` receives `None`,
its `check_resource_ids` raises `TypeError`, and construction fails. -/
theorem init_none_resource_ids_fails {T : Type} (dir : Option (List DirEntry))
    (envMeta : Int → List RawMetadata) (envSeries : Int → T)
    (ks : Keyphrases) (ma : Bool) (h : get_resource_id dir ks ma = Option.none) :
    timeseries_search_init dir envMeta envSeries ks ma = .error .typeError := by
  simp [timeseries_search_init, h, pyValOfIds, get_overview, check_resource_ids]

/-- Witness for C10: a failed directory fetch. -/
theorem init_none_resource_ids_fails_witness :
    timeseries_search_init Option.none (fun _ => []) (fun _ => (0 : Nat))
      .omitted false = .error .typeError :=
  init_none_resource_ids_fails Option.none (fun _ => []) (fun _ => (0 : Nat))
    .omitted false rfl

/-- The `match_all=True` list branch of `get_resource_id` on a non-empty
directory, written out. -/
theorem resolve_list_true_eq (records : List DirEntry) (ks : List String)
    (hne : records ≠ []) :
    get_resource_id (some records) (.list ks) true =
      some ((records.filter fun d =>
        ks.all fun k => pyContains (lowerL k.data) (lowerL d.title.data)).map
          (·.resourceId)) := by
  have hemp : records.isEmpty = false := by
    cases records with
    | nil => exact absurd rfl hne
    | cons r rs => rfl
  simp only [get_resource_id, hemp, Bool.false_eq_true, if_false]
  rw [if_neg (by simp)]

/-- **C3 (counterexample)**: with directory `{(1, "ac")}`, `A = {"a", "b"}`
and `B = {"c"}`, the any-match of `A ∪ B` finds 1 identifier while
`|resolve(A)| + |resolve(B)| − |resolve(A∪B, match_all=true)| = 1 + 1 − 0 = 2`:
the all-match over `A ∪ B` is not the intersection of the two matched sets,
so the claimed equation fails. -/
theorem resolve_inclusion_exclusion_cex :
    ((get_resource_id (some [⟨1, "ac"⟩]) (.list ["a", "b", "c"]) false).getD []).length ≠
      ((get_resource_id (some [⟨1, "ac"⟩]) (.list ["a", "b"]) false).getD []).length +
        ((get_resource_id (some [⟨1, "ac"⟩]) (.list ["c"]) false).getD []).length -
        ((get_resource_id (some [⟨1, "ac"⟩]) (.list ["a", "b", "c"]) true).getD []).length := by
  decide

/-- **C3 (amended)**: the inclusion–exclusion count holds for singleton
keyphrase sets `A = {a}`, `B = {b}` (with keyphrases free of regex
metacharacters), stated additively:
`|resolve([a,b], any)| + |resolve([a,b], all)| = |resolve([a])| + |resolve([b])|`. -/
theorem resolve_inclusion_exclusion_amended (records : List DirEntry) (a b : String)
    (hne : records ≠ [])
    (ha : ∀ c ∈ a.data, c ∉ reMetachars) (hb : ∀ c ∈ b.data, c ∉ reMetachars) :
    ((get_resource_id (some records) (.list [a, b]) false).getD []).length +
      ((get_resource_id (some records) (.list [a, b]) true).getD []).length
    = ((get_resource_id (some records) (.list [a]) false).getD []).length +
      ((get_resource_id (some records) (.list [b]) false).getD []).length := by
  have hmab : ∀ k ∈ [a, b], ∀ c ∈ k.data, c ∉ reMetachars := by
    intro k hk
    simp only [List.mem_cons, List.not_mem_nil, or_false] at hk
    rcases hk with rfl | rfl
    · exact ha
    · exact hb
  have hma : ∀ k ∈ [a], ∀ c ∈ k.data, c ∉ reMetachars := by
    intro k hk
    simp only [List.mem_singleton] at hk
    subst hk
    exact ha
  have hmb : ∀ k ∈ [b], ∀ c ∈ k.data, c ∉ reMetachars := by
    intro k hk
    simp only [List.mem_singleton] at hk
    subst hk
    exact hb
  rw [resolve_list_false_substr records [a, b] hne (by simp) hmab,
    resolve_list_false_substr records [a] hne (by simp) hma,
    resolve_list_false_substr records [b] hne (by simp) hmb,
    resolve_list_true_eq records [a, b] hne]
  simp only [Option.getD_some, List.length_map, List.any_cons, List.any_nil,
    List.all_cons, List.all_nil, Bool.or_false, Bool.and_true]
  exact length_filter_or_and _ _ records

/-- Witness for C3 on the one-entry directory `{(1, "ac")}` with `a = "a"`,
`b = "c"`. -/
theorem resolve_inclusion_exclusion_amended_witness :
    ((get_resource_id (some [⟨1, "ac"⟩]) (.list ["a", "c"]) false).getD []).length +
      ((get_resource_id (some [⟨1, "ac"⟩]) (.list ["a", "c"]) true).getD []).length
    = ((get_resource_id (some [⟨1, "ac"⟩]) (.list ["a"]) false).getD []).length +
      ((get_resource_id (some [⟨1, "ac"⟩]) (.list ["c"]) false).getD []).length :=
  resolve_inclusion_exclusion_amended [⟨1, "ac"⟩] "a" "c" (by decide) (by decide)
    (by decide)

/-- **C2**: filtering with frequency "all" never reaches the skip-the-test
branch.  The string form raises `NameError` (the source asserts on the
unbound name `freq`), and the list form raises `AssertionError` because the
allowed-values list spells the entry `"all,"` — so neither call returns the
session's full overview and timeseries as the claim states. -/
theorem filter_all_frequency_bug :
    filter_datasets demoSession (.str "all") Option.none false = .error .nameError ∧
      filter_datasets demoSession (.list ["all"]) Option.none false =
        .error .assertionError := by
  exact ⟨by decide, by decide⟩

/-- **C4**: validation does not accept the recognized values.  The recognized
string `"annual"` raises `NameError` (unbound `freq` in the assert), the
recognized list value `["all"]` raises `AssertionError` (the allowed list
contains `"all,"`), and `["Annual"]` — whose lowercase value is recognized —
also raises `AssertionError` because the membership test never lower-cases
the argument. -/
theorem filter_frequency_validation_bug :
    filter_datasets demoSession (.str "annual") Option.none false = .error .nameError ∧
      filter_datasets demoSession (.list ["Annual"]) Option.none false =
        .error .assertionError ∧
      filter_datasets demoSession (.list ["weekly"]) Option.none false =
        .error .assertionError := by
  exact ⟨by decide, by decide, by decide⟩

/-- **C7**: the claimed idempotent call never filters at all — a string
`"quarterly"` frequency reaches the `assert freq in frequencies` of the
string branch, where `freq` is unbound, so the very first call raises
`NameError` and the session is never updated. -/
theorem filter_quarterly_idempotent_bug :
    filter_datasets demoSession (.str "quarterly") (some 2000) true =
      .error .nameError := by
  decide

/-- **C5 (counterexample)**: `start_year = -999` is not a 4-digit integer
(it is not between 1000 and 9999), yet validation accepts it —
`len(str(-999)) == 4` counts the minus sign — and the call completes
normally instead of failing with `InvalidArgument`. -/
theorem start_year_validation_cex :
    filter_datasets demoSession (.list ["annual"]) (some (-999)) false =
      .ok (demoSession, some [(2, 102)]) := by
  decide

/-- The digits do not depend on the fuel, as long as it is sufficient. -/
theorem natStrAux_stable : ∀ (f g n : Nat), n < f → n < g →
    natStrAux f n = natStrAux g n
  | 0, _, _, hf, _ => absurd hf (by omega)
  | _ + 1, 0, _, _, hg => absurd hg (by omega)
  | f + 1, g + 1, n, hf, hg => by
    by_cases h : n < 10
    · simp [natStrAux, h]
    · simp only [natStrAux, h, if_false]
      rw [natStrAux_stable f g (n / 10) (by omega) (by omega)]

/-- One digit for `n < 10`. -/
theorem natStr_len_lt {n : Nat} (h : n < 10) : (natStr n).length = 1 := by
  simp [natStr, natStrAux, h, String.length]

/-- One more digit than `n / 10` for `10 ≤ n`. -/
theorem natStr_len_ge {n : Nat} (h : 10 ≤ n) :
    (natStr n).length = (natStr (n / 10)).length + 1 := by
  have h1 : ¬n < 10 := by omega
  have h0 : natStrAux (n + 1) n =
      natStrAux n (n / 10) ++ [Nat.digitChar (n % 10)] := by
    simp only [natStrAux, h1, if_false]
  rw [natStr, natStr, String.length, String.length, h0,
    natStrAux_stable n (n / 10 + 1) (n / 10) (by omega) (by omega)]
  simp

/-- Decimal strings, `str(n)`, are never empty. -/
theorem natStr_len_pos (n : Nat) : 1 ≤ (natStr n).length := by
  by_cases h : n < 10
  · rw [natStr_len_lt h]
  · rw [natStr_len_ge (by omega)]
    omega

/-- One digit exactly for `n < 10`. -/
theorem natStr_len_eq_one (n : Nat) : (natStr n).length = 1 ↔ n < 10 := by
  constructor
  · intro hl
    by_contra h
    have := natStr_len_pos (n / 10)
    rw [natStr_len_ge (by omega)] at hl
    omega
  · exact natStr_len_lt

/-- Two digits exactly for `10 ≤ n < 100`. -/
theorem natStr_len_eq_two (n : Nat) : (natStr n).length = 2 ↔ 10 ≤ n ∧ n < 100 := by
  by_cases h : n < 10
  · rw [natStr_len_lt h]
    omega
  · rw [natStr_len_ge (by omega)]
    constructor
    · intro hl
      have h1 : (natStr (n / 10)).length = 1 := by omega
      have := (natStr_len_eq_one _).mp h1
      omega
    · intro hb
      rw [(natStr_len_eq_one _).mpr (by omega : n / 10 < 10)]

/-- Three digits exactly for `100 ≤ n < 1000`. -/
theorem natStr_len_eq_three (n : Nat) :
    (natStr n).length = 3 ↔ 100 ≤ n ∧ n < 1000 := by
  by_cases h : n < 10
  · rw [natStr_len_lt h]
    omega
  · rw [natStr_len_ge (by omega)]
    constructor
    · intro hl
      have h1 : (natStr (n / 10)).length = 2 := by omega
      have := (natStr_len_eq_two _).mp h1
      omega
    · intro hb
      rw [(natStr_len_eq_two _).mpr (by omega : 10 ≤ n / 10 ∧ n / 10 < 100)]

/-- Four digits exactly for `1000 ≤ n < 10000`. -/
theorem natStr_len_eq_four (n : Nat) :
    (natStr n).length = 4 ↔ 1000 ≤ n ∧ n < 10000 := by
  by_cases h : n < 10
  · rw [natStr_len_lt h]
    omega
  · rw [natStr_len_ge (by omega)]
    constructor
    · intro hl
      have h1 : (natStr (n / 10)).length = 3 := by omega
      have := (natStr_len_eq_three _).mp h1
      omega
    · intro hb
      rw [(natStr_len_eq_three _).mpr (by omega : 100 ≤ n / 10 ∧ n / 10 < 1000)]

/-- Length four, `len(str(y)) == 4`, for an int holds exactly on `1000..9999` and
`-999..-100`. -/
theorem pyIntStr_len_eq_four (y : Int) :
    (pyIntStr y).length = 4 ↔ (1000 ≤ y ∧ y ≤ 9999) ∨ (-999 ≤ y ∧ y ≤ -100) := by
  unfold pyIntStr
  by_cases h : y < 0
  · rw [if_pos h]
    have hlen : ("-" ++ natStr y.natAbs).length = (natStr y.natAbs).length + 1 := by
      have hone : ("-" : String).length = 1 := rfl
      rw [String.length_append, hone]
      omega
    rw [hlen]
    have h3 := natStr_len_eq_three y.natAbs
    constructor
    · intro hl
      have hb : (natStr y.natAbs).length = 3 := by omega
      have := h3.mp hb
      omega
    · intro hy
      rw [h3.mpr (by omega : 100 ≤ y.natAbs ∧ y.natAbs < 1000)]
  · rw [if_neg h]
    have h4 := natStr_len_eq_four y.toNat
    constructor
    · intro hl
      have := h4.mp hl
      omega
    · intro hy
      exact h4.mpr (by omega)

/-- **C5 (amended)**: the `start_year` validation accepts exactly the absent
value and the integers whose decimal string has four characters — the 4-digit
years `1000..9999` **and** the negative years `-999..-100`, whose minus sign
is counted by `len(str(start_year))`; whenever the check fails, `filter`
raises `TypeError` before any filtering. -/
theorem start_year_validation_amended (sy : Option Int) :
    (start_year_check sy = true ↔
        sy = Option.none ∨ ∃ y : Int, sy = some y ∧
          ((1000 ≤ y ∧ y ≤ 9999) ∨ (-999 ≤ y ∧ y ≤ -100))) ∧
      ∀ (T : Type) (st : Session T) (f : Freq) (ip : Bool),
        start_year_check sy = false →
        filter_datasets st f sy ip = .error .typeError := by
  constructor
  · cases sy with
    | none => exact iff_of_true (by decide) (Or.inl rfl)
    | some y =>
      rw [show start_year_check (some y) = ((pyIntStr y).length == 4) from rfl,
        beq_iff_eq, pyIntStr_len_eq_four]
      simp
  · intro T st f ip h
    simp [filter_datasets, h]

/-- Witness for C5: `start_year = 50` has a 2-character string, so the check
fails and `filter` raises `TypeError`. -/
theorem start_year_validation_amended_witness :
    filter_datasets demoSession (.list ["annual"]) (some 50) false =
      .error .typeError :=
  (start_year_validation_amended (some 50)).2 Nat demoSession
    (.list ["annual"]) false (by decide)

/-- **C6**: with `in_place=False`, whenever the argument validation and the
overview filtering succeed, `filter` returns the session unchanged together
with the dictionary mapping each surviving identifier to the session's
cached series table. -/
theorem filter_not_inplace_frame {T : Type} (st : Session T) (f : Freq)
    (sy : Option Int) (fo : DF OverviewRecord) (d : List (Int × T))
    (hy : start_year_check sy = true)
    (hfo : filteredOverview st.overview f sy = .ok fo)
    (hd : buildDict st.timeseries (fo.map fun p => p.2.resourceId) = .ok d) :
    filter_datasets st f sy false = .ok (st, some d) := by
  simp [filter_datasets, hy, hfo, hd]

/-- Witness for C6: filtering the demo session down to its quarterly series. -/
theorem filter_not_inplace_frame_witness :
    filter_datasets demoSession (.list ["quarterly"]) Option.none false =
      .ok (demoSession, some [(1, 101)]) :=
  filter_not_inplace_frame demoSession (.list ["quarterly"]) Option.none
    [(0, r1)] [(1, 101)] (by decide) (by decide) (by decide)

/-- Folding `build_metadata_table` over the ids adds one block of rows per
identifier. -/
theorem build_foldl_length (env : Int → List RawMetadata) :
    ∀ (ids : List Int) (init : DF OverviewRecord),
      (ids.foldl (build_metadata_table env) init).length
        = init.length + (ids.map fun i => (env i).length).sum
  | [], init => by simp
  | i :: t, init => by
    simp only [List.foldl_cons, List.map_cons, List.sum_cons]
    rw [build_foldl_length env t (build_metadata_table env init i)]
    simp [build_metadata_table, dfOfRows]
    omega

/-- Summing a constant-one weight counts the elements. -/
theorem sum_map_ones {a : Type} (f : a → Nat) :
    ∀ l : List a, (∀ x ∈ l, f x = 1) → (l.map f).sum = l.length
  | [], _ => rfl
  | x :: t, h => by
    simp only [List.map_cons, List.sum_cons, List.length_cons,
      h x (List.mem_cons_self x t),
      sum_map_ones f t fun y hy => h y (List.mem_cons_of_mem x hy)]
    omega

/-- Renumbering, `reset_index`, keeps the number of rows. -/
theorem resetIndex_length {a : Type} (df : DF a) : (resetIndex df).length = df.length := by
  simp [resetIndex]

/-- After `reset_index` the index labels are the dense sequence `0, 1, ...`. -/
theorem resetIndex_fst {a : Type} (df : DF a) :
    (resetIndex df).map Prod.fst = List.range df.length := by
  unfold resetIndex
  exact List.map_fst_zip _ _ (by simp)

/-- Renumbering, `reset_index`, keeps the rows themselves. -/
theorem resetIndex_snd {a : Type} (df : DF a) :
    (resetIndex df).map Prod.snd = df.map Prod.snd := by
  unfold resetIndex
  exact List.map_snd_zip _ _ (by simp)

/-- **C8**: for distinct valid identifiers whose metadata fetches each yield
exactly one record, `get_overview` returns exactly one row per identifier,
with the rows sorted ascending by identifier and the index reset to the
dense 0-based sequence. -/
theorem get_overview_sorted_dense (env : Int → List RawMetadata) (ids : List Int)
    (_hd : ids.Nodup) (h1 : ∀ i ∈ ids, (env i).length = 1)
    (df : DF OverviewRecord)
    (hdf : get_overview env (.vlist ids) = .ok df) :
    df.length = ids.length ∧
      df.map Prod.fst = List.range ids.length ∧
      List.Sorted (· ≤ ·) (df.map fun p => p.2.resourceId) := by
  have hdf' : resetIndex (sortByResourceId (ids.foldl (build_metadata_table env) []))
      = df := by
    simpa [get_overview, check_resource_ids] using hdf
  subst hdf'
  have hlen : (ids.foldl (build_metadata_table env) []).length = ids.length := by
    rw [build_foldl_length]
    simp [sum_map_ones _ ids h1]
  have hslen : (sortByResourceId (ids.foldl (build_metadata_table env) [])).length
      = ids.length := by
    rw [sortByResourceId, List.length_insertionSort, hlen]
  refine ⟨?_, ?_, ?_⟩
  · rw [resetIndex_length, hslen]
  · rw [resetIndex_fst, hslen]
  · have hs : List.Sorted rowLe
        (sortByResourceId (ids.foldl (build_metadata_table env) [])) :=
      List.sorted_insertionSort rowLe _
    have hmm : (resetIndex (sortByResourceId (ids.foldl (build_metadata_table env) []))).map
          (fun p => p.2.resourceId)
        = ((resetIndex (sortByResourceId (ids.foldl (build_metadata_table env) []))).map
            Prod.snd).map (fun r => r.resourceId) := by
      rw [List.map_map]
      rfl
    rw [hmm, resetIndex_snd, List.map_map]
    exact (List.pairwise_map.mpr (by simpa [rowLe, Function.comp] using hs))

/-- Witness for C8: two identifiers supplied in descending order come back as
two rows sorted ascending with a fresh 0-based index. -/
theorem get_overview_sorted_dense_witness :
    ([(0, dropColumns (mkMeta 1)), (1, dropColumns (mkMeta 2))] : DF OverviewRecord).length
        = ([2, 1] : List Int).length ∧
      ([(0, dropColumns (mkMeta 1)), (1, dropColumns (mkMeta 2))] : DF OverviewRecord).map
          Prod.fst = List.range ([2, 1] : List Int).length ∧
      List.Sorted (· ≤ ·)
        (([(0, dropColumns (mkMeta 1)), (1, dropColumns (mkMeta 2))] : DF OverviewRecord).map
          fun p => p.2.resourceId) :=
  get_overview_sorted_dense (fun i => [mkMeta i]) [2, 1] (by decide) (by decide)
    [(0, dropColumns (mkMeta 1)), (1, dropColumns (mkMeta 2))] (by decide)
